import Mathlib

/-!
Verification of the AGAMATOKEN_BOT buy-alert bot (bot.py) against its
natural-language specification.

The embedding models, from the source:
* the per-transaction threshold check of handle_new_block (lines 109-119),
* the exact numeric semantics of the comparison on line 114, whose left side
  is an exact Decimal produced by fromWei and whose right side is the Python
  float literal 0.025 (IEEE-754 binary64), compared exactly,
* the exception-swallowing notifier send_telegram_alert (lines 41-69),
* the per-block try/except of handle_new_block (lines 105-121),
* the connection-retry structure of listen_for_new_blocks (lines 155-159),
* the startup validation of the main block (lines 164-184), and
* the self-rescheduling reminder timer send_reminder (lines 72-98).
-/

namespace AgamaBot

/-- A transaction record as consumed by `handle_new_block`: the fields
`tx.to`, `tx.value`, `tx.hash` and the sender field read on line 116.
`toAddr` is absent (`None`) for contract-creation transactions;
`value` is the transferred amount in wei (a non-negative integer);
`hash` is kept in its hex-string form. -/
structure Tx where
  toAddr : Option String
  value : ℕ
  hash : String
  sender : String
deriving DecidableEq, Repr

/-- Python string lowercasing restricted to the character-by-character case
mapping (the strings compared in the source are ASCII hex addresses). -/
def py_lower (s : String) : String := ⟨s.data.map Char.toLower⟩

/-- Python truthiness of a string-or-`None` value, as used on line 112
(`tx.to and ...`) and line 164 (`all([...])`): `None` and the empty string
are falsy. -/
def py_truthy : Option String → Bool
  | none => false
  | some s => s ≠ ""

/-- The exact rational value of the source constant `MIN_BNB_PURCHASE = 0.025`
(line 32).  The Python literal 0.025 denotes the IEEE-754 binary64 number
nearest to 1/40, which is `7205759403792794 / 2 ^ 58` — strictly greater
than 1/40. -/
def MIN_BNB_PURCHASE : ℚ := mkRat 7205759403792794 (2 ^ 58)

/-- The conversion on line 113, `fromWei` with unit ether: the exact
`Decimal` quotient of the wei value by `10 ^ 18`. -/
def fromWei_ether (wei : ℕ) : ℚ := mkRat wei (10 ^ 18)

/-- A qualifying event: the data (transaction hash, converted value, buyer
address) passed to `send_telegram_alert` on lines 115-119. -/
structure Alert where
  tx_hash : String
  amount : ℚ
  buyer_address : String
deriving DecidableEq, Repr

/-- The per-transaction check of `handle_new_block` (lines 112-119): the
transaction must have a truthy recipient whose lowercase form equals the
lowercase watched address, and its converted value must reach
`MIN_BNB_PURCHASE`.  Python compares the exact `Decimal` against the float
exactly. -/
def evaluate (watched : String) (t : Tx) : Option Alert :=
  if py_truthy t.toAddr && (py_lower (t.toAddr.getD "") == py_lower watched) then
    let bnb_value := fromWei_ether t.value
    if MIN_BNB_PURCHASE ≤ bnb_value then
      some ⟨t.hash, bnb_value, t.sender⟩
    else
      none
  else
    none

/-- The sequence of buy-alert calls produced by the transaction loop of
`handle_new_block` (lines 109-119), in block order, when no exception is
raised. -/
def handle_new_block_alerts (watched : String) : List Tx → List Alert
  | [] => []
  | t :: ts =>
    match evaluate watched t with
    | some a => a :: handle_new_block_alerts watched ts
    | none => handle_new_block_alerts watched ts

/-- The token address appearing in the source (line 34), used as a concrete
watched contract address in witnesses. -/
def sampleAddr : String := "0x2119de8f257d27662991198389E15Bf8d1F4aB24"

/-- The same address in a different capitalization. -/
def sampleAddrUpper : String := "0x2119DE8F257D27662991198389E15BF8D1F4AB24"

/-- Python exceptions, coarsely: a `TelegramError` or any other `Exception`
(the handlers on lines 66-69 and 120-121). -/
inductive PyError where
  | telegramError (msg : String)
  | otherError (msg : String)
deriving DecidableEq, Repr

/-- Boolean success test for an `Except` result. -/
def exceptOk {ε α : Type} : Except ε α → Bool
  | .ok _ => true
  | .error _ => false

/-- One iteration of the transaction loop (lines 112-119), with the value
conversion of line 113 modelled as fallible (`conv`): the conversion is only
attempted once the recipient check has passed, and an exception raised by it
propagates out of the loop body. -/
def tx_step (conv : ℕ → Except PyError ℚ) (watched : String) (t : Tx) :
    Except PyError (Option Alert) :=
  if py_truthy t.toAddr && (py_lower (t.toAddr.getD "") == py_lower watched) then
    match conv t.value with
    | .error e => .error e
    | .ok bnb_value =>
      if MIN_BNB_PURCHASE ≤ bnb_value then .ok (some ⟨t.hash, bnb_value, t.sender⟩)
      else .ok none
  else
    .ok none

/-- The transaction loop of lines 109-119 under the fallible step: alerts are
produced in order until the first exception, which aborts the remainder of
the loop and is reported to the surrounding handler. -/
def tx_loop (conv : ℕ → Except PyError ℚ) (watched : String) :
    List Tx → List Alert × Option PyError
  | [] => ([], none)
  | t :: ts =>
    match tx_step conv watched t with
    | .error e => ([], some e)
    | .ok none => tx_loop conv watched ts
    | .ok (some a) =>
      let r := tx_loop conv watched ts
      (a :: r.1, r.2)

/-- Function `handle_new_block` (lines 105-121): the surrounding try/except
catches any exception escaping the loop, logs it and returns, so the block
contributes exactly the alerts produced before the exception. -/
def handle_new_block_run (conv : ℕ → Except PyError ℚ) (watched : String)
    (txs : List Tx) : List Alert :=
  (tx_loop conv watched txs).1

/-- The per-header processing of the listener (line 147) over a sequence of
fetched blocks: each block is handled by `handle_new_block`, whose internal
try/except guarantees the next block is always reached. -/
def run_blocks (conv : ℕ → Except PyError ℚ) (watched : String) :
    List (List Tx) → List Alert
  | [] => []
  | b :: bs => handle_new_block_run conv watched b ++ run_blocks conv watched bs

/-- A conversion oracle that raises on the wei value 666 and is exact
elsewhere, used to witness C9. -/
def faultyConv : ℕ → Except PyError ℚ := fun w =>
  if w = 666 then .error (.otherError "conversion fault") else .ok (fromWei_ether w)

/-- Observable outcome of one `send_telegram_alert` call: the alert was sent,
or a `TelegramError` was logged (line 67), or an unexpected exception was
logged (line 69). -/
inductive SendOutcome where
  | sent
  | loggedTelegramError (msg : String)
  | loggedUnexpectedError (msg : String)
deriving DecidableEq, Repr

/-- Function `send_telegram_alert` (lines 41-69): formats the message and
attempts the delivery (the photo-sending call, whose outcome is the
parameter); a `TelegramError` and any other `Exception` raised inside the
try block are caught and logged.  The return type allows an exception to
propagate to the caller; the theorem for C5 shows none ever does. -/
def send_telegram_alert (delivery : Except PyError Unit) :
    Except PyError SendOutcome :=
  match delivery with
  | .ok _ => .ok .sent
  | .error (.telegramError m) => .ok (.loggedTelegramError m)
  | .error (.otherError m) => .ok (.loggedUnexpectedError m)

/-- The transaction loop of `handle_new_block` with the notification calls
made explicit: each qualifying transaction triggers `send_telegram_alert`
(line 119); an exception escaping `send_telegram_alert` would abort the
remainder of the loop like any other.  Returns the attempted alerts with
their outcomes, and the exception (if any) reaching the block-level
handler. -/
def tx_loop_sending (deliver : Alert → Except PyError Unit) (watched : String) :
    List Tx → List (Alert × SendOutcome) × Option PyError
  | [] => ([], none)
  | t :: ts =>
    match evaluate watched t with
    | none => tx_loop_sending deliver watched ts
    | some a =>
      match send_telegram_alert (deliver a) with
      | .error e => ([], some e)
      | .ok o =>
        let r := tx_loop_sending deliver watched ts
        ((a, o) :: r.1, r.2)

/-- Successive blocks processed by the listener, with notification
outcomes. -/
def run_blocks_sending (deliver : Alert → Except PyError Unit) (watched : String) :
    List (List Tx) → List (Alert × SendOutcome)
  | [] => []
  | b :: bs =>
    (tx_loop_sending deliver watched b).1 ++ run_blocks_sending deliver watched bs

/-- Observable events of the connection phase of `listen_for_new_blocks`. -/
inductive ConnEvent where
  | connectAttempt (n : ℕ)
  | sleepSeconds (s : ℕ)
  | subscribed
deriving DecidableEq, Repr

/-- The connection phase of `listen_for_new_blocks` (lines 123-159): attempt
to open the subscription connection; on any exception, log, sleep 5 seconds
(line 158), and call itself again (line 159).  `outcome n` tells whether the
`n`-th attempt succeeds.  `fuel` bounds the recursion so the definition is
total; the C6 theorem shows a run with `k` initial failures consumes exactly
`k + 1` attempts, so any larger fuel yields the same trace. -/
def listen_connect (outcome : ℕ → Bool) (n : ℕ) : ℕ → List ConnEvent
  | 0 => []
  | fuel + 1 =>
    if outcome n then [ConnEvent.connectAttempt n, ConnEvent.subscribed]
    else ConnEvent.connectAttempt n :: ConnEvent.sleepSeconds 5 ::
      listen_connect outcome (n + 1) fuel

/-- The four environment-supplied settings (lines 26-29); `none` models an
unset variable, `some ""` an empty one — both falsy in the `all` check. -/
structure Config where
  TELEGRAM_BOT_TOKEN : Option String
  TELEGRAM_CHAT_ID : Option String
  QUICKNODE_WSS_URL : Option String
  TOKEN_CONTRACT_ADDRESS : Option String
deriving DecidableEq, Repr

/-- The validation condition of line 164: `all` of the four settings,
with Python truthiness. -/
def config_all_set (c : Config) : Bool :=
  py_truthy c.TELEGRAM_BOT_TOKEN && py_truthy c.TELEGRAM_CHAT_ID &&
    py_truthy c.QUICKNODE_WSS_URL && py_truthy c.TOKEN_CONTRACT_ADDRESS

/-- The required items actually missing from a configuration (the names the
spec asks the startup report to identify). -/
def missing_items (c : Config) : List String :=
  (if py_truthy c.TELEGRAM_BOT_TOKEN then [] else ["TEL_BOT_TOKEN"]) ++
    (if py_truthy c.TELEGRAM_CHAT_ID then [] else ["TEL_CHAT_ID"]) ++
    (if py_truthy c.QUICKNODE_WSS_URL then [] else ["QN_WSS_URL"]) ++
    (if py_truthy c.TOKEN_CONTRACT_ADDRESS then [] else ["TOKEN_CONTRACT_ADDRESS"])

/-- Observable outcome of the startup sequence. -/
structure StartupResult where
  printed : List String
  exitCode : Option ℕ
  reminderTimerStarted : Bool
  listenerStarted : Bool
deriving DecidableEq, Repr

/-- The main block (lines 162-188): validate the configuration (lines
164-167), initialize the HTTP provider — whose success is the parameter
`httpConnectOk` (lines 171-178) — then start the reminder timer (lines
180-184) and the listener (line 188). -/
def main_startup (c : Config) (httpConnectOk : Bool) : StartupResult :=
  if !(config_all_set c) then
    { printed := ["Error: One or more required environment variables are not set.",
        "Please set TEL_BOT_TOKEN, TEL_CHAT_ID, QN_WSS_URL, and TOKEN_CONTRACT_ADDRESS."],
      exitCode := some 1, reminderTimerStarted := false, listenerStarted := false }
  else if !httpConnectOk then
    { printed := ["Bot is starting...", "Error initializing Web3 HTTP provider: ..."],
      exitCode := some 1, reminderTimerStarted := false, listenerStarted := false }
  else
    { printed := ["Bot is starting...", "Starting 30-minute reminder timer...",
        "Starting blockchain listener..."],
      exitCode := none, reminderTimerStarted := true, listenerStarted := true }

/-- The reminder interval in seconds: the timer construction on lines 96 and
182 uses a delay of 30 * 60. -/
def REMINDER_INTERVAL : ℕ := 30 * 60

/-- One reminder send attempt as observed from outside: how long the attempt
took (seconds) and whether the message was delivered.  Failures are swallowed
by the try/except of `send_reminder` (lines 77-93), so the outcome never
influences control flow. -/
structure SendAttempt where
  duration : ℕ
  delivered : Bool
deriving DecidableEq, Repr

/-- Observable events of the reminder scheduler. -/
inductive TimerEvent where
  | timerStart (time delay : ℕ)
  | reminderFire (time : ℕ)
  | sendFinish (time : ℕ) (delivered : Bool)
deriving DecidableEq, Repr

/-- Function `send_reminder` (lines 72-98) iterated: a firing at time `t`
attempts the send — taking `(env 0).duration` seconds, its failure swallowed
— and then, only after the attempt completes, starts the next 30-minute
timer (lines 96-98), which fires one full interval after being started.
`env` is shifted at each recursion so `env j` describes the `j`-th remaining
attempt; `n` bounds the number of firings traced. -/
def send_reminder_trace (env : ℕ → SendAttempt) (t : ℕ) : ℕ → List TimerEvent
  | 0 => []
  | n + 1 =>
    TimerEvent.reminderFire t ::
      TimerEvent.sendFinish (t + (env 0).duration) (env 0).delivered ::
      TimerEvent.timerStart (t + (env 0).duration) REMINDER_INTERVAL ::
      send_reminder_trace (fun j => env (j + 1))
        (t + (env 0).duration + REMINDER_INTERVAL) n

/-- Startup lines 180-184: the first 30-minute timer is started at time `t0`;
nothing is sent at startup, and the first firing happens one interval
later. -/
def main_reminder_trace (env : ℕ → SendAttempt) (t0 n : ℕ) : List TimerEvent :=
  TimerEvent.timerStart t0 REMINDER_INTERVAL ::
    send_reminder_trace env (t0 + REMINDER_INTERVAL) n

/-- The firing times appearing in a trace, in order. -/
def fire_times (evts : List TimerEvent) : List ℕ :=
  evts.filterMap fun e =>
    match e with
    | TimerEvent.reminderFire t => some t
    | _ => none

/-- Closed form of the reminder firing times when the first timer is started
at `t0`: the `i`-th firing. -/
def reminder_fire_time (env : ℕ → SendAttempt) (t0 : ℕ) : ℕ → ℕ
  | 0 => t0 + REMINDER_INTERVAL
  | i + 1 => reminder_fire_time env t0 i + (env i).duration + REMINDER_INTERVAL

/-- Firing sequence starting from a given first firing time `t`. -/
def fire_seq (env : ℕ → SendAttempt) (t : ℕ) : ℕ → ℕ
  | 0 => t
  | i + 1 => fire_seq env t i + (env i).duration + REMINDER_INTERVAL

/-- The threshold constant written as a quotient. -/
theorem MIN_BNB_PURCHASE_eq : MIN_BNB_PURCHASE = 7205759403792794 / 2 ^ 58 := by
  norm_num [MIN_BNB_PURCHASE, mkRat, Rat.normalize]

/-- The wei conversion written as a quotient. -/
theorem fromWei_ether_eq (wei : ℕ) : fromWei_ether wei = (wei : ℚ) / 10 ^ 18 := by
  rw [fromWei_ether, Rat.mkRat_eq_div]
  norm_num

/-- The value test of line 114 in terms of wei: the exact quotient of the wei
value by `10 ^ 18` reaches the float 0.025 exactly when the wei value is at
least 25000000000000002, because the float equals
`7205759403792794 / 2 ^ 58 ≈ 0.0250000000000000013878`. -/
theorem qualifying_wei_iff (w : ℕ) :
    MIN_BNB_PURCHASE ≤ fromWei_ether w ↔ 25000000000000002 ≤ w := by
  rw [MIN_BNB_PURCHASE_eq, fromWei_ether_eq,
    div_le_div_iff₀ (by norm_num) (by norm_num)]
  rw [show ((10 : ℚ) ^ 18) = ((10 ^ 18 : ℕ) : ℚ) by norm_num,
    show ((2 : ℚ) ^ 58) = ((2 ^ 58 : ℕ) : ℚ) by norm_num,
    show ((7205759403792794 : ℚ)) = ((7205759403792794 : ℕ) : ℚ) by norm_num]
  rw [← Nat.cast_mul, ← Nat.cast_mul, Nat.cast_le]
  constructor
  · intro h
    have h1 : 7205759403792794 * 10 ^ 18 ≤ w * 2 ^ 58 := h
    have h2 : (2 : ℕ) ^ 58 = 288230376151711744 := by norm_num
    rw [h2] at h1
    have h3 : (7205759403792794 : ℕ) * 10 ^ 18 = 7205759403792794000000000000000000 := by
      norm_num
    rw [h3] at h1
    omega
  · intro h
    have h2 : (2 : ℕ) ^ 58 = 288230376151711744 := by norm_num
    have h3 : (7205759403792794 : ℕ) * 10 ^ 18 = 7205759403792794000000000000000000 := by
      norm_num
    rw [h2, h3]
    omega

/-- Characterization of `evaluate`: it produces a qualifying event exactly
when the recipient is a non-empty address whose lowercase form equals the
lowercase watched address and the wei value reaches the float threshold. -/
theorem evaluate_isSome_iff (watched : String) (t : Tx) :
    (evaluate watched t).isSome = true ↔
      ∃ a, t.toAddr = some a ∧ a ≠ "" ∧ py_lower a = py_lower watched ∧
        MIN_BNB_PURCHASE ≤ fromWei_ether t.value := by
  rcases t with ⟨ta, v, hsh, snd⟩
  cases ta with
  | none => simp [evaluate, py_truthy]
  | some a =>
    simp only [evaluate, py_truthy, Option.getD_some]
    by_cases ha : a = ""
    · simp [ha]
    · by_cases hl : py_lower a = py_lower watched
      · by_cases hv : MIN_BNB_PURCHASE ≤ fromWei_ether v
        · simp [ha, hl, hv]
        · simp [ha, hl, hv]
      · simp [ha, hl]

/-- Characterization of `evaluate` in wei: a transaction qualifies exactly
when its recipient is a non-empty address matching the watched address modulo
case and its value is at least 25000000000000002 wei. -/
theorem evaluate_qualifies_iff (watched : String) (t : Tx) :
    (evaluate watched t).isSome = true ↔
      ∃ a, t.toAddr = some a ∧ a ≠ "" ∧ py_lower a = py_lower watched ∧
        25000000000000002 ≤ t.value := by
  rw [evaluate_isSome_iff]
  constructor
  · rintro ⟨a, h1, h2, h3, h4⟩
    exact ⟨a, h1, h2, h3, (qualifying_wei_iff t.value).mp h4⟩
  · rintro ⟨a, h1, h2, h3, h4⟩
    exact ⟨a, h1, h2, h3, (qualifying_wei_iff t.value).mpr h4⟩

/-- C1 (counterexample): the claim says a transaction qualifies as soon as
its recipient matches (case-insensitively) and its value in native units is
at least 0.025 (the exact rational `mkRat 25 1000 = 1/40`).  The transaction
below has a matching recipient and value 25000000000000001 wei, i.e.
0.025000000000000001 ≥ 0.025 native units, yet `evaluate` returns nothing:
the source compares against the float literal 0.025, whose exact value
exceeds 1/40. -/
theorem c1_counterexample :
    (Tx.mk (some sampleAddrUpper) 25000000000000001 "0xhash1" "0xbuyer1").toAddr.isSome = true ∧
      py_lower ((Tx.mk (some sampleAddrUpper) 25000000000000001 "0xhash1" "0xbuyer1").toAddr.getD "")
        = py_lower sampleAddr ∧
      mkRat 25 1000 ≤ fromWei_ether
        (Tx.mk (some sampleAddrUpper) 25000000000000001 "0xhash1" "0xbuyer1").value ∧
      evaluate sampleAddr (Tx.mk (some sampleAddrUpper) 25000000000000001 "0xhash1" "0xbuyer1")
        = none := by
  refine ⟨rfl, by decide, by decide, by decide⟩

/-- C1 (amended): for every transaction T, the threshold evaluation of
`handle_new_block` produces a qualifying event iff the recipient field of T
is present (a non-empty address), the recipient case-insensitively equals the
watched contract address, and the value of T converted to native units is at
least the IEEE-754 binary64 value of the literal 0.025
(`7205759403792794 / 2 ^ 58`, slightly above 0.025; equivalently, the value
is at least 25000000000000002 wei); otherwise it produces nothing. -/
theorem c1_evaluate_iff (watched : String) (t : Tx) :
    (evaluate watched t).isSome = true ↔
      ∃ a, t.toAddr = some a ∧ a ≠ "" ∧ py_lower a = py_lower watched ∧
        25000000000000002 ≤ t.value :=
  evaluate_qualifies_iff watched t

/-- C2 (counterexample): the claim says a transaction made out to the watched
address with value exactly 25000000000000000 wei — exactly 0.025 native
units, the conversion giving exactly `mkRat 25 1000 = 1/40` — qualifies at
the boundary.  It does not: `evaluate` returns nothing for it, because the
exact Decimal 0.025 is strictly below the float constant 0.025. -/
theorem c2_counterexample :
    fromWei_ether (Tx.mk (some sampleAddr) 25000000000000000 "0xhash2" "0xbuyer2").value
        = mkRat 25 1000 ∧
      evaluate sampleAddr (Tx.mk (some sampleAddr) 25000000000000000 "0xhash2" "0xbuyer2")
        = none := by
  exact ⟨by decide, by decide⟩

/-- C2 (amended): a transaction to the watched address with value exactly
25000000000000000 wei (exactly 0.025 native units) does NOT qualify: the
exact Decimal result 1/40 of the wei conversion is strictly below the
floating-point constant 0.025 (whose exact value is
`7205759403792794 / 2 ^ 58`), so the at-least comparison fails at the
boundary.  The least qualifying wei value for a matching recipient is
25000000000000002. -/
theorem c2_boundary :
    evaluate sampleAddr (Tx.mk (some sampleAddr) 25000000000000000 "0xhash2" "0xbuyer2") = none ∧
      mkRat 25 1000 < MIN_BNB_PURCHASE ∧
      ∀ w : ℕ,
        (evaluate sampleAddr (Tx.mk (some sampleAddr) w "0xhash2" "0xbuyer2")).isSome = true ↔
          25000000000000002 ≤ w := by
  refine ⟨by decide, by decide, fun w => ?_⟩
  rw [evaluate_qualifies_iff]
  constructor
  · rintro ⟨a, h1, _, _, h4⟩
    exact h4
  · intro h
    exact ⟨sampleAddr, rfl, by decide, rfl, h⟩

/-- C3: the transaction loop of `handle_new_block` produces exactly the
qualifying events, one per qualifying transaction, in the block transaction
order (the `filterMap` of the evaluation over the block); hence a block with
N qualifying transactions produces exactly N buy-alert calls, and a block
with zero qualifying transactions produces none. -/
theorem c3_alerts_per_block (watched : String) (txs : List Tx) :
    handle_new_block_alerts watched txs = txs.filterMap (evaluate watched) ∧
      (handle_new_block_alerts watched txs).length
        = txs.countP (fun t => (evaluate watched t).isSome) ∧
      (handle_new_block_alerts watched txs = [] ↔
        txs.countP (fun t => (evaluate watched t).isSome) = 0) := by
  have h1 : ∀ ts : List Tx,
      handle_new_block_alerts watched ts = ts.filterMap (evaluate watched) := by
    intro ts
    induction ts with
    | nil => rfl
    | cons t ts ih =>
      rw [List.filterMap_cons]
      cases h : evaluate watched t <;> simp [handle_new_block_alerts, h, ih]
  have h2 : ∀ ts : List Tx,
      (ts.filterMap (evaluate watched)).length
        = ts.countP (fun t => (evaluate watched t).isSome) := by
    intro ts
    induction ts with
    | nil => rfl
    | cons t ts ih =>
      rw [List.filterMap_cons, List.countP_cons]
      cases h : evaluate watched t <;> simp [ih, h]
  refine ⟨h1 txs, by rw [h1 txs]; exact h2 txs, ?_⟩
  rw [h1 txs, ← h2 txs]
  exact List.length_eq_zero.symm

/-- With the exact conversion, `tx_step` never raises and agrees with
`evaluate`. -/
theorem tx_step_exact (watched : String) (t : Tx) :
    tx_step (fun w => .ok (fromWei_ether w)) watched t = .ok (evaluate watched t) := by
  by_cases hc : (py_truthy t.toAddr && (py_lower (t.toAddr.getD "") == py_lower watched)) = true
  · simp only [tx_step, evaluate, hc, if_true]
    by_cases hv : MIN_BNB_PURCHASE ≤ fromWei_ether t.value
    · simp [hv]
    · simp [hv]
  · simp only [Bool.not_eq_true] at hc
    simp [tx_step, evaluate, hc]

/-- C4: a transaction with an absent recipient field (a contract-creation
transaction) produces no alert and raises no error, whatever the watched
address and whatever the behavior of the value conversion — the conversion is
never even reached, since line 112 short-circuits on the recipient field. -/
theorem c4_recipient_absent (conv : ℕ → Except PyError ℚ) (watched : String)
    (t : Tx) (h : t.toAddr = none) :
    evaluate watched t = none ∧ tx_step conv watched t = .ok none := by
  constructor
  · rw [evaluate, h]
    rfl
  · rw [tx_step, h]
    rfl

/-- C4 (witness): the recipient-absent transaction below yields no alert and
no error even under a conversion that always raises. -/
theorem c4_recipient_absent_witness :
    evaluate sampleAddr (Tx.mk none 30000000000000000 "0xhash4" "0xbuyer4") = none ∧
      tx_step (fun _ => .error (.otherError "boom")) sampleAddr
        (Tx.mk none 30000000000000000 "0xhash4" "0xbuyer4") = .ok none :=
  c4_recipient_absent (fun _ => .error (.otherError "boom")) sampleAddr
    (Tx.mk none 30000000000000000 "0xhash4" "0xbuyer4") rfl

/-- Concatenation of processed blocks splits over list append. -/
theorem run_blocks_append (conv : ℕ → Except PyError ℚ) (watched : String)
    (bs1 bs2 : List (List Tx)) :
    run_blocks conv watched (bs1 ++ bs2)
      = run_blocks conv watched bs1 ++ run_blocks conv watched bs2 := by
  induction bs1 with
  | nil => rfl
  | cons b bs ih => simp [run_blocks, ih]

/-- A loop whose prefix succeeds and which then hits a faulting transaction
produces exactly the alerts of the prefix. -/
theorem tx_loop_append_error (conv : ℕ → Except PyError ℚ) (watched : String)
    (pre post : List Tx) (bad : Tx)
    (hpre : ∀ t ∈ pre, exceptOk (tx_step conv watched t) = true)
    (hbad : exceptOk (tx_step conv watched bad) = false) :
    (tx_loop conv watched (pre ++ bad :: post)).1 = (tx_loop conv watched pre).1 := by
  induction pre with
  | nil =>
    rw [List.nil_append]
    cases h : tx_step conv watched bad with
    | error e => simp [tx_loop, h]
    | ok r => rw [h] at hbad; simp [exceptOk] at hbad
  | cons t ts ih =>
    have ht : exceptOk (tx_step conv watched t) = true := hpre t (by simp)
    have hts : ∀ u ∈ ts, exceptOk (tx_step conv watched u) = true := by
      intro u hu
      exact hpre u (by simp [hu])
    cases h : tx_step conv watched t with
    | error e => rw [h] at ht; simp [exceptOk] at ht
    | ok r =>
      cases r with
      | none => simp [tx_loop, h, ih hts]
      | some a => simp [tx_loop, h, ih hts]

/-- C9: error isolation is per-block, not per-transaction.  If an exception is
raised while processing one transaction of a block (here: during value
conversion, outside the swallowed notification path), the remaining
transactions of that block are skipped and produce no alerts — the block
contributes only the alerts of the prefix before the faulting transaction —
while every other block, before and after, is processed normally. -/
theorem c9_per_block_isolation (conv : ℕ → Except PyError ℚ) (watched : String)
    (bs1 bs2 : List (List Tx)) (pre post : List Tx) (bad : Tx)
    (hpre : ∀ t ∈ pre, exceptOk (tx_step conv watched t) = true)
    (hbad : exceptOk (tx_step conv watched bad) = false) :
    run_blocks conv watched (bs1 ++ (pre ++ bad :: post) :: bs2)
      = run_blocks conv watched bs1 ++ handle_new_block_run conv watched pre
          ++ run_blocks conv watched bs2 := by
  rw [run_blocks_append]
  have : run_blocks conv watched ((pre ++ bad :: post) :: bs2)
      = handle_new_block_run conv watched pre ++ run_blocks conv watched bs2 := by
    rw [run_blocks, handle_new_block_run, handle_new_block_run,
      tx_loop_append_error conv watched pre post bad hpre hbad]
  rw [this, List.append_assoc]

/-- C9 (witness): with a conversion that faults on one transaction of the
middle block, that block contributes only the alerts preceding the fault,
and the surrounding blocks are processed normally. -/
theorem c9_per_block_isolation_witness :
    run_blocks faultyConv sampleAddr
        ([[Tx.mk (some sampleAddr) 30000000000000000 "0xh91" "0xb91"]]
          ++ ([Tx.mk (some sampleAddr) 40000000000000000 "0xh92" "0xb92"]
              ++ Tx.mk (some sampleAddr) 666 "0xh93" "0xb93"
                :: [Tx.mk (some sampleAddr) 50000000000000000 "0xh94" "0xb94"]) ::
            [[Tx.mk (some sampleAddr) 60000000000000000 "0xh95" "0xb95"]])
      = run_blocks faultyConv sampleAddr
          [[Tx.mk (some sampleAddr) 30000000000000000 "0xh91" "0xb91"]]
        ++ handle_new_block_run faultyConv sampleAddr
            [Tx.mk (some sampleAddr) 40000000000000000 "0xh92" "0xb92"]
        ++ run_blocks faultyConv sampleAddr
            [[Tx.mk (some sampleAddr) 60000000000000000 "0xh95" "0xb95"]] :=
  c9_per_block_isolation faultyConv sampleAddr
    [[Tx.mk (some sampleAddr) 30000000000000000 "0xh91" "0xb91"]]
    [[Tx.mk (some sampleAddr) 60000000000000000 "0xh95" "0xb95"]]
    [Tx.mk (some sampleAddr) 40000000000000000 "0xh92" "0xb92"]
    [Tx.mk (some sampleAddr) 50000000000000000 "0xh94" "0xb94"]
    (Tx.mk (some sampleAddr) 666 "0xh93" "0xb93")
    (by decide) (by decide)

/-- Within one block, the attempted alerts do not depend on delivery
outcomes, and no exception reaches the block-level handler. -/
theorem tx_loop_sending_alerts (deliver : Alert → Except PyError Unit)
    (watched : String) (txs : List Tx) :
    (tx_loop_sending deliver watched txs).1.map Prod.fst
        = handle_new_block_alerts watched txs ∧
      (tx_loop_sending deliver watched txs).2 = none := by
  induction txs with
  | nil => exact ⟨rfl, rfl⟩
  | cons t ts ih =>
    cases h : evaluate watched t with
    | none => simpa [tx_loop_sending, handle_new_block_alerts, h] using ih
    | some a =>
      cases hd : deliver a with
      | ok u => simpa [tx_loop_sending, handle_new_block_alerts, h, hd,
          send_telegram_alert] using ih
      | error e =>
        cases e with
        | telegramError m => simpa [tx_loop_sending, handle_new_block_alerts, h, hd,
            send_telegram_alert] using ih
        | otherError m => simpa [tx_loop_sending, handle_new_block_alerts, h, hd,
            send_telegram_alert] using ih

/-- C5: a delivery failure raised while sending a buy alert is swallowed
inside `send_telegram_alert`: (1) for every delivery outcome — success,
`TelegramError`, or any other exception — the call returns normally, so no
exception ever propagates to the caller or the listener loop; consequently
(2) within a block, every qualifying transaction after a failed send is still
processed and its alert still attempted, no exception reaches the block-level
handler, and (3) all subsequent blocks are processed in full, whatever the
delivery outcomes. -/
theorem c5_notify_error_swallowed :
    (∀ d : Except PyError Unit, exceptOk (send_telegram_alert d) = true) ∧
      (∀ (deliver : Alert → Except PyError Unit) (watched : String) (txs : List Tx),
        (tx_loop_sending deliver watched txs).1.map Prod.fst
            = handle_new_block_alerts watched txs ∧
          (tx_loop_sending deliver watched txs).2 = none) ∧
      (∀ (deliver : Alert → Except PyError Unit) (watched : String)
          (bs : List (List Tx)),
        (run_blocks_sending deliver watched bs).map Prod.fst
          = (bs.map (handle_new_block_alerts watched)).flatten) := by
  refine ⟨?_, tx_loop_sending_alerts, ?_⟩
  · intro d
    cases d with
    | ok u => rfl
    | error e => cases e <;> rfl
  · intro deliver watched bs
    induction bs with
    | nil => rfl
    | cons b bs ih =>
      simp [run_blocks_sending, ih, (tx_loop_sending_alerts deliver watched b).1]

/-- General form of the retry trace: starting at attempt `n`, with the next
`k` attempts failing and attempt `n + k` succeeding, the trace is `k` times
(attempt, 5-second sleep) and then the successful attempt reaching the
subscribed state. -/
theorem listen_connect_trace (outcome : ℕ → Bool) (k : ℕ) :
    ∀ n : ℕ, (∀ j < k, outcome (n + j) = false) → outcome (n + k) = true →
      ∀ fuel : ℕ, k < fuel →
        listen_connect outcome n fuel
          = ((List.range k).map
              (fun j => [ConnEvent.connectAttempt (n + j), ConnEvent.sleepSeconds 5])).flatten
            ++ [ConnEvent.connectAttempt (n + k), ConnEvent.subscribed] := by
  induction k with
  | zero =>
    intro n hfail hsucc fuel hfuel
    obtain ⟨m, rfl⟩ : ∃ m, fuel = m + 1 := ⟨fuel - 1, by omega⟩
    rw [listen_connect]
    simp only [Nat.add_zero] at hsucc
    simp [hsucc]
  | succ k ih =>
    intro n hfail hsucc fuel hfuel
    obtain ⟨m, rfl⟩ : ∃ m, fuel = m + 1 := ⟨fuel - 1, by omega⟩
    have h0 : outcome n = false := by
      have := hfail 0 (by omega)
      simpa using this
    rw [listen_connect, h0]
    simp only [Bool.false_eq_true, if_false]
    have hfail2 : ∀ j < k, outcome (n + 1 + j) = false := by
      intro j hj
      have := hfail (j + 1) (by omega)
      simpa [Nat.add_assoc, Nat.add_comm 1 j] using this
    have hsucc2 : outcome (n + 1 + k) = true := by
      have h : n + 1 + k = n + (k + 1) := by omega
      rw [h]
      exact hsucc
    rw [ih (n + 1) hfail2 hsucc2 m (by omega)]
    rw [List.range_succ_eq_map, List.map_cons, List.flatten_cons, List.map_map]
    have hfun : ((fun j => [ConnEvent.connectAttempt (n + j), ConnEvent.sleepSeconds 5])
          ∘ Nat.succ)
        = fun j => [ConnEvent.connectAttempt (n + 1 + j), ConnEvent.sleepSeconds 5] := by
      funext j
      simp only [Function.comp_apply]
      rw [show n + Nat.succ j = n + 1 + j by omega]
    rw [hfun, show n + (k + 1) = n + 1 + k by omega]
    simp

/-- C6: whenever establishing the subscription connection fails, the listener
sleeps the fixed 5 seconds and retries, and this repeats for every number `k`
of consecutive failures: the run performs attempts 0, 1, ..., k, each failure
followed by exactly one 5-second delay and one retry, until the attempt that
succeeds reaches the subscribed state. -/
theorem c6_retry_until_success (outcome : ℕ → Bool) (k : ℕ)
    (hfail : ∀ j < k, outcome j = false) (hsucc : outcome k = true)
    (fuel : ℕ) (hfuel : k < fuel) :
    listen_connect outcome 0 fuel
      = ((List.range k).map
          (fun j => [ConnEvent.connectAttempt j, ConnEvent.sleepSeconds 5])).flatten
        ++ [ConnEvent.connectAttempt k, ConnEvent.subscribed] := by
  have h := listen_connect_trace outcome k 0 (by simpa using hfail) (by simpa using hsucc)
    fuel hfuel
  simpa using h

/-- C6 (witness): with the first two attempts failing and the third
succeeding, the listener produces attempt, 5-second sleep, attempt, 5-second
sleep, attempt, subscribed. -/
theorem c6_retry_until_success_witness :
    listen_connect (fun n => n == 2) 0 4
      = ((List.range 2).map
          (fun j => [ConnEvent.connectAttempt j, ConnEvent.sleepSeconds 5])).flatten
        ++ [ConnEvent.connectAttempt 2, ConnEvent.subscribed] :=
  c6_retry_until_success (fun n => n == 2) 2 (by decide) (by decide) 4 (by decide)

/-- C7 (counterexample): the claim says the process reports the specific
missing items.  It does not: a configuration missing only the bot credential
and one missing only the channel identifier have different missing items but
produce the very same startup outcome — the same two fixed printed lines
naming all four variables — so the report does not identify which items are
missing. -/
theorem c7_counterexample :
    missing_items (Config.mk none (some "-100123") (some "wss://x") (some "0xaddr"))
        ≠ missing_items (Config.mk (some "8322:AA") none (some "wss://x") (some "0xaddr")) ∧
      main_startup (Config.mk none (some "-100123") (some "wss://x") (some "0xaddr")) true
        = main_startup (Config.mk (some "8322:AA") none (some "wss://x") (some "0xaddr"))
            true := by
  exact ⟨by decide, by decide⟩

/-- C7 (amended): if any required configuration value is missing at startup,
the process exits with status 1 and starts no background task (no reminder
timer, no listener); it prints a fixed, generic error naming all four
required variables, rather than the specific missing items. -/
theorem c7_missing_config_exits (c : Config) (httpConnectOk : Bool)
    (h : config_all_set c = false) :
    (main_startup c httpConnectOk).exitCode = some 1 ∧
      (main_startup c httpConnectOk).reminderTimerStarted = false ∧
      (main_startup c httpConnectOk).listenerStarted = false ∧
      (main_startup c httpConnectOk).printed
        = ["Error: One or more required environment variables are not set.",
            "Please set TEL_BOT_TOKEN, TEL_CHAT_ID, QN_WSS_URL, and TOKEN_CONTRACT_ADDRESS."] := by
  rw [main_startup, h]
  exact ⟨rfl, rfl, rfl, rfl⟩

/-- C7 (witness): a configuration missing the bot credential exits with
status 1 and starts neither background task. -/
theorem c7_missing_config_exits_witness :
    (main_startup (Config.mk none (some "-100123") (some "wss://x") (some "0xaddr"))
          false).exitCode = some 1 ∧
      (main_startup (Config.mk none (some "-100123") (some "wss://x") (some "0xaddr"))
          false).reminderTimerStarted = false ∧
      (main_startup (Config.mk none (some "-100123") (some "wss://x") (some "0xaddr"))
          false).listenerStarted = false ∧
      (main_startup (Config.mk none (some "-100123") (some "wss://x") (some "0xaddr"))
          false).printed
        = ["Error: One or more required environment variables are not set.",
            "Please set TEL_BOT_TOKEN, TEL_CHAT_ID, QN_WSS_URL, and TOKEN_CONTRACT_ADDRESS."] :=
  c7_missing_config_exits
    (Config.mk none (some "-100123") (some "wss://x") (some "0xaddr")) false (by decide)

/-- Shifting the firing sequence by one step. -/
theorem fire_seq_shift (env : ℕ → SendAttempt) (t : ℕ) :
    ∀ j, fire_seq env t (j + 1)
      = fire_seq (fun m => env (m + 1)) (t + (env 0).duration + REMINDER_INTERVAL) j := by
  intro j
  induction j with
  | zero => rfl
  | succ j ih =>
    show fire_seq env t (j + 1) + (env (j + 1)).duration + REMINDER_INTERVAL = _
    rw [ih]
    rfl

/-- The firing times of the operational reminder trace are exactly the
closed-form firing sequence. -/
theorem fire_times_send_reminder_trace (n : ℕ) :
    ∀ (env : ℕ → SendAttempt) (t : ℕ),
      fire_times (send_reminder_trace env t n) = (List.range n).map (fire_seq env t) := by
  induction n with
  | zero => intro env t; rfl
  | succ n ih =>
    intro env t
    have h1 : fire_times (send_reminder_trace env t (n + 1))
        = t :: fire_times (send_reminder_trace (fun j => env (j + 1))
            (t + (env 0).duration + REMINDER_INTERVAL) n) := rfl
    rw [h1, ih, List.range_succ_eq_map, List.map_cons, List.map_map]
    have h2 : (fire_seq env t ∘ Nat.succ)
        = fire_seq (fun m => env (m + 1)) (t + (env 0).duration + REMINDER_INTERVAL) := by
      funext j
      simp only [Function.comp_apply]
      exact fire_seq_shift env t j
    rw [h2]
    rfl

/-- The two firing-time forms agree. -/
theorem reminder_fire_time_eq_fire_seq (env : ℕ → SendAttempt) (t0 : ℕ) :
    ∀ i, reminder_fire_time env t0 i = fire_seq env (t0 + REMINDER_INTERVAL) i := by
  intro i
  induction i with
  | zero => rfl
  | succ i ih =>
    show reminder_fire_time env t0 i + _ + _ = fire_seq env (t0 + REMINDER_INTERVAL) i + _ + _
    rw [ih]

/-- No firing happens before one full interval has elapsed. -/
theorem reminder_fire_time_lower (env : ℕ → SendAttempt) (t0 : ℕ) :
    ∀ i, t0 + REMINDER_INTERVAL ≤ reminder_fire_time env t0 i := by
  intro i
  induction i with
  | zero => exact Nat.le_refl _
  | succ i ih =>
    show t0 + REMINDER_INTERVAL ≤ reminder_fire_time env t0 i + _ + _
    omega

/-- C8 (counterexample): the claim says consecutive reminder firings are
always exactly the 30-minute period apart.  With a send attempt that takes
60 seconds (e.g. a delivery timeout, failure swallowed), the first two
firings of the trace are at 1800 and 3660 seconds: 1860 seconds apart, not
1800 — the next timer is armed only after the attempt completes. -/
theorem c8_counterexample :
    fire_times (main_reminder_trace (fun _ => SendAttempt.mk 60 false) 0 2)
        = [1800, 3660] ∧
      (3660 - 1800 : ℕ) ≠ 30 * 60 := by
  exact ⟨rfl, by decide⟩

/-- C8 (amended): consecutive reminder firings are separated by the fixed
30-minute period plus the duration of the send attempt at the earlier firing
(the 30-minute timer is re-armed only after the attempt completes), and the
whole firing schedule depends only on the attempt durations — never on
whether the sends succeeded or failed, since the timer is re-armed
unconditionally after the swallowing try/except. -/
theorem c8_period_plus_duration (env env2 : ℕ → SendAttempt) (t0 i : ℕ)
    (h : ∀ j, (env j).duration = (env2 j).duration) :
    reminder_fire_time env t0 (i + 1) - reminder_fire_time env t0 i
        = REMINDER_INTERVAL + (env i).duration ∧
      reminder_fire_time env t0 i = reminder_fire_time env2 t0 i := by
  constructor
  · show reminder_fire_time env t0 i + (env i).duration + REMINDER_INTERVAL
        - reminder_fire_time env t0 i = _
    omega
  · induction i with
    | zero => rfl
    | succ i ih =>
      show reminder_fire_time env t0 i + (env i).duration + REMINDER_INTERVAL
          = reminder_fire_time env2 t0 i + (env2 i).duration + REMINDER_INTERVAL
      rw [ih, h i]

/-- C8 (witness): with every attempt taking 60 seconds, the second firing is
1860 seconds after the first, whatever the delivery outcomes were. -/
theorem c8_period_plus_duration_witness :
    reminder_fire_time (fun _ => SendAttempt.mk 60 true) 0 1
          - reminder_fire_time (fun _ => SendAttempt.mk 60 true) 0 0
        = REMINDER_INTERVAL + (SendAttempt.mk 60 true).duration ∧
      reminder_fire_time (fun _ => SendAttempt.mk 60 true) 0 0
        = reminder_fire_time (fun _ => SendAttempt.mk 60 false) 0 0 :=
  c8_period_plus_duration (fun _ => SendAttempt.mk 60 true)
    (fun _ => SendAttempt.mk 60 false) 0 0 (fun _ => rfl)

/-- C10: no reminder is sent at process startup — the trace beginning with
the timer started at `t0` fires first at `t0` plus one full 30-minute
interval, and every firing time is at least that; the firing times are
exactly the closed-form schedule in which each firing starts the timer of its
successor only once its own send attempt has completed (successor = firing
time + attempt duration + interval). -/
theorem c10_no_startup_reminder (env : ℕ → SendAttempt) (t0 n : ℕ) :
    fire_times (main_reminder_trace env t0 n)
        = (List.range n).map (reminder_fire_time env t0) ∧
      reminder_fire_time env t0 0 = t0 + REMINDER_INTERVAL ∧
      (∀ t ∈ fire_times (main_reminder_trace env t0 n), t0 + REMINDER_INTERVAL ≤ t) ∧
      (∀ i, reminder_fire_time env t0 (i + 1)
        = reminder_fire_time env t0 i + (env i).duration + REMINDER_INTERVAL) := by
  have htrace : fire_times (main_reminder_trace env t0 n)
      = (List.range n).map (reminder_fire_time env t0) := by
    have h1 : fire_times (main_reminder_trace env t0 n)
        = fire_times (send_reminder_trace env (t0 + REMINDER_INTERVAL) n) := rfl
    rw [h1, fire_times_send_reminder_trace]
    congr 1
    funext i
    exact (reminder_fire_time_eq_fire_seq env t0 i).symm
  refine ⟨htrace, rfl, ?_, fun i => rfl⟩
  intro t ht
  rw [htrace] at ht
  obtain ⟨i, _, rfl⟩ := List.mem_map.mp ht
  exact reminder_fire_time_lower env t0 i

/-- C10 (witness): with the timer started at time 100 and an instantaneous
send, the single firing of a one-step trace is at 1900 = 100 + 30 * 60, one
full interval after start. -/
theorem c10_no_startup_reminder_witness :
    100 + REMINDER_INTERVAL ≤ 1900 :=
  (c10_no_startup_reminder (fun _ => SendAttempt.mk 0 true) 100 1).2.2.1 1900 (by decide)

end AgamaBot
